import Mathlib

/-!
Shallow embedding of the npcnix configuration-sync agent
(src/lib.rs, src/config.rs, src/bin/npcnix.rs).

External effects (subprocesses, filesystem, network) are modelled by an
oracle record giving the outcome of each external call a cycle can make,
plus a trace of the effects actually performed, so that frame conditions
("no pull happened") are stated as trace membership.
-/

namespace Npcnix

/-- A remote URL. The embedded operations inspect only the scheme
(`remote.scheme()` in the source); host/path are consumed inside the
oracle-level subprocess outcomes. -/
structure Url where
  scheme : String
deriving DecidableEq, Repr

/-- Embeds the `Config` struct of src/config.rs (the persisted record,
`/var/lib/npcnix/config.json`). Timestamps are seconds (Int); u64 tuning
fields are Nat. -/
structure Config where
  remote : Option Url
  configuration : Option String
  last_reconfiguration : Int
  last_etag : String
  min_sleep_secs : Nat
  max_sleep_secs : Nat
  max_sleep_after_hours : Nat
deriving DecidableEq, Repr

/-- Embeds `Config::default` (src/config.rs lines 36-48): `now` stands for
`chrono::Utc::now()`. -/
def Config.default (now : Int) : Config where
  remote := none
  configuration := none
  last_reconfiguration := now
  last_etag := ""
  min_sleep_secs := 15
  max_sleep_secs := 120
  max_sleep_after_hours := 24

/-- Embeds `Config::with_updated_last_reconfiguration` (src/config.rs
lines 93-99): sets the etag and the reconfiguration time, keeps the rest. -/
def Config.with_updated_last_reconfiguration (c : Config) (etag : String) (now : Int) : Config :=
  { c with last_etag := etag, last_reconfiguration := now }

/-- True on `Except.error`. -/
def isErr : Except String α → Bool
  | .error _ => true
  | .ok _ => false

/-- Observable external effects of one operation, in order of occurrence. -/
inductive Effect where
  /-- the blocking sleep of `Config::rng_sleep` -/
  | sleep
  /-- the `aws s3api get-object-attributes` subprocess of `get_etag_s3` -/
  | fetchTag
  /-- the `aws s3 cp remote -` subprocess of `pull_s3` -/
  | pull
  /-- the tar+zstd extraction of `unpack_archive_to` -/
  | unpack
  /-- the external activation command of `activate` -/
  | activate
  /-- a write of the persisted record (`DataDir::update_last_reconfiguration`) -/
  | store
  /-- the `aws s3 cp - remote` subprocess of `push_s3` -/
  | spawnPush
deriving DecidableEq, Repr

/-- Oracle for `activate` (src/lib.rs lines 57-74): whether
`src.join("flake.nix").exists()`, and the io-level outcome of
`Command::status()` — `.ok code` means the external command ran and exited
with `code`; `.error` means spawning failed. -/
structure ActivateWorld where
  flakePresent : Bool
  statusResult : Except String Int
deriving Repr

/-- Embeds `verify_flake_src` (src/lib.rs lines 92-100). -/
def verify_flake_src (flakePresent : Bool) : Except String Unit :=
  if flakePresent then .ok () else .error "Flake source directory does not contain flake.nix file"

/-- Embeds `activate` (src/lib.rs lines 57-74): verify the flake marker,
then run the external activation command via `.status()?`. The `?` only
propagates the io error of spawning; the returned `ExitStatus` value is
dropped, so the exit code is never inspected. -/
def activate (w : ActivateWorld) : Except String Unit := do
  let _ ← verify_flake_src w.flakePresent
  let _code ← w.statusResult
  pure ()

/-- Embeds `get_etag` (src/lib.rs lines 49-55): dispatch on the scheme;
`etagResult` is the outcome of `get_etag_s3` (subprocess + status check +
JSON parse). Returns the effects performed with the result: an unsupported
scheme bails before any subprocess. -/
def get_etag (remote : Url) (etagResult : Except String String) :
    List Effect × Except String String :=
  if remote.scheme = "s3" then ([Effect.fetchTag], etagResult)
  else ([], .error ("Protocol not supported: " ++ remote.scheme))

/-- Oracle for one daemon cycle: outcomes of each external call the cycle
may make, in source order. -/
structure CycleWorld where
  /-- outcome of `get_etag_s3` -/
  etagResult : Except String String
  /-- outcome of `tempfile::TempDir::new()` -/
  tmpDirResult : Except String Unit
  /-- outcome of spawning `aws s3 cp remote -` (`pull_s3`) -/
  spawnPullResult : Except String Unit
  /-- outcome of `unpack_archive_to` on the pulled stream -/
  unpackResult : Except String Unit
  /-- outcome of `child.wait()` at the end of `pull` -/
  pullWaitResult : Except String Unit
  /-- whether the unpacked scratch directory contains flake.nix -/
  flakePresent : Bool
  /-- io outcome of the activation `Command::status()` (exit code if it ran) -/
  activStatusResult : Except String Int
  /-- outcome of persisting the record (store step of `update_last_reconfiguration`) -/
  storeResult : Except String Unit
deriving Repr

/-- Embeds `pull` (src/lib.rs lines 19-30) as run by a daemon cycle:
dispatch on scheme, spawn the transport subprocess, unpack into the
scratch directory, wait for the child. -/
def pullOp (remote : Url) (w : CycleWorld) : List Effect × Except String Unit :=
  if remote.scheme = "s3" then
    match w.spawnPullResult with
    | .error e => ([], .error e)
    | .ok _ =>
      match w.unpackResult with
      | .error e => ([Effect.pull], .error e)
      | .ok _ =>
        match w.pullWaitResult with
        | .error e => ([Effect.pull, Effect.unpack], .error e)
        | .ok _ => ([Effect.pull, Effect.unpack], .ok ())
  else ([], .error ("Protocol not supported: " ++ remote.scheme))

/-- Modelled from the spec: `DataDir::update_last_reconfiguration`
(data_dir.rs, not under src/). Per spec section 4.1 every mutation is
load, derive, store; per section 4.6 step 5 the daemon persists the new
tag and the current timestamp together, which is exactly
`Config::with_updated_last_reconfiguration` (src/config.rs lines 93-99). -/
def update_last_reconfiguration (stored : Config) (etag : String) (now : Int) : Config :=
  stored.with_updated_last_reconfiguration etag now

/-- Result of one daemon cycle: the persisted record after the cycle, the
effects performed, and `.ok` when control reaches the next loop iteration
(via `continue` or the loop end) or `.error` when a `?` propagates the
error out of the `daemon` function, terminating the loop. -/
abbrev CycleOut := Config × List Effect × Except String Unit

/-- Shared body of both daemon loops (src/lib.rs lines 178-196 and
src/bin/npcnix.rs lines 104-121), which differ only in whether the success
path persists the new tag: `persist := true` embeds the library `daemon`
(which calls `data_dir.update_last_reconfiguration(&etag)?`), and
`persist := false` embeds the binary's `npcnix_daemon` (which has no such
call). The cycle loads the stored record, sleeps, reads the remote, gets
the etag, compares, and on change pulls into a scratch directory and
activates. The source passes `config.configuration()` (a `Result`) to
`activate`; it is modelled as the fallible lookup it wraps. -/
def daemonCycle (persist : Bool) (stored : Config) (now : Int) (w : CycleWorld) : CycleOut :=
  let config := stored
  match config.remote with
  | none => (stored, [Effect.sleep], .error "Remote not set")
  | some remote =>
    let (eEff, eRes) := get_etag remote w.etagResult
    match eRes with
    | .error e => (stored, Effect.sleep :: eEff, .error e)
    | .ok etag =>
      if config.last_etag = etag then
        (stored, Effect.sleep :: eEff, .ok ())
      else
        match w.tmpDirResult with
        | .error e => (stored, Effect.sleep :: eEff, .error e)
        | .ok _ =>
          let (pEff, pRes) := pullOp remote w
          match pRes with
          | .error e => (stored, Effect.sleep :: eEff ++ pEff, .error e)
          | .ok _ =>
            match config.configuration with
            | none => (stored, Effect.sleep :: eEff ++ pEff, .error "configuration not set")
            | some _conf =>
              match verify_flake_src w.flakePresent with
              | .error e => (stored, Effect.sleep :: eEff ++ pEff, .error e)
              | .ok _ =>
                match w.activStatusResult with
                | .error e =>
                  (stored, Effect.sleep :: eEff ++ pEff ++ [Effect.activate], .error e)
                | .ok _code =>
                  if persist then
                    match w.storeResult with
                    | .error e =>
                      (stored, Effect.sleep :: eEff ++ pEff ++ [Effect.activate], .error e)
                    | .ok _ =>
                      (update_last_reconfiguration stored etag now,
                        Effect.sleep :: eEff ++ pEff ++ [Effect.activate, Effect.store], .ok ())
                  else
                    (stored, Effect.sleep :: eEff ++ pEff ++ [Effect.activate], .ok ())

/-- The library `daemon` cycle (src/lib.rs lines 178-196). -/
def daemonCycleLib (stored : Config) (now : Int) (w : CycleWorld) : CycleOut :=
  daemonCycle true stored now w

/-- The binary's `npcnix_daemon` cycle (src/bin/npcnix.rs lines 104-121). -/
def daemonCycleBin (stored : Config) (now : Int) (w : CycleWorld) : CycleOut :=
  daemonCycle false stored now w

/-- Runs the daemon `loop` over a stream of cycle oracles: an `.ok` cycle
continues with the (possibly updated) stored record; an `.error` cycle
makes the `daemon` function return that error — the daemon process exits.
Returns the final persisted record and `some e` when the daemon
terminated with error `e`, `none` when it is still looping after the
given cycles. -/
def daemonRun (persist : Bool) (stored : Config) (now : Int) :
    List CycleWorld → Config × Option String
  | [] => (stored, none)
  | w :: ws =>
    match daemonCycle persist stored now w with
    | (st, _, .ok _) => daemonRun persist st now ws
    | (st, _, .error e) => (st, some e)

/-- Oracle for `push` (src/lib.rs lines 32-47): outcomes of spawning
`aws s3 cp - remote`, of `pack_archive_from` + flush, and of
`child.wait()`. -/
structure PushWorld where
  spawnResult : Except String Unit
  packResult : Except String Unit
  waitResult : Except String Unit
deriving Repr

/-- Embeds `push` (src/lib.rs lines 32-47): verify the flake marker first,
then dispatch on scheme, spawn the upload subprocess, pack the archive
into it, and wait. `srcFlake` is whether the source directory contains
flake.nix. -/
def push (srcFlake : Bool) (remote : Url) (w : PushWorld) : List Effect × Except String Unit :=
  match verify_flake_src srcFlake with
  | .error e => ([], .error e)
  | .ok _ =>
    if remote.scheme = "s3" then
      match w.spawnResult with
      | .error e => ([], .error e)
      | .ok _ =>
        match w.packResult with
        | .error e => ([Effect.spawnPush], .error e)
        | .ok _ =>
          match w.waitResult with
          | .error e => ([Effect.spawnPush], .error e)
          | .ok _ => ([Effect.spawnPush], .ok ())
    else ([], .error ("Protocol not supported: " ++ remote.scheme))

/-- Possible states of the persisted record's file for `load_config`. -/
inductive FileState where
  | absent
  | invalid (e : String)
  | valid (c : Config)

/-- Modelled from the spec: the StateStore load used by both daemons
(`DataDir::load_config` / `Common::load_config`, in data_dir.rs / opts.rs,
not under src/). Per spec section 4.1 it defaults to a fresh record when
no file exists and surfaces an error for a file that is present but
invalid; a valid file parses via `Config::load` (src/config.rs lines
51-53). -/
def load_config (fs : FileState) (now : Int) : Except String Config :=
  match fs with
  | .absent => .ok (Config.default now)
  | .invalid e => .error e
  | .valid c => .ok c

/-- The Rust `u64 as i64` cast: reinterpret the low 64 bits as two's
complement. -/
def u64_as_i64 (n : Nat) : Int :=
  if n % 2 ^ 64 < 2 ^ 63 then ((n % 2 ^ 64 : Nat) : Int)
  else ((n % 2 ^ 64 : Nat) : Int) - 2 ^ 64

/-- The Rust `f32 as i64` cast on a finite value: truncation toward zero
(the saturation bounds are never reached by the sleep computation, whose
draw is at most 5400). -/
def ratTruncToInt (q : ℚ) : Int :=
  if 0 ≤ q then ⌊q⌋ else -⌊-q⌋

/-- Rust `f32::clamp(x, lo, hi)` for `lo ≤ hi`. -/
def clampQ (x lo hi : ℚ) : ℚ := max lo (min x hi)

/-- The `since_last_update` of `Config::cur_rng_sleep_time` (src/config.rs
lines 116-119): `elapsed` is `(Utc::now() - last_reconfiguration)` in whole
seconds; the source takes the max with 1 second. -/
def since_last_update (elapsed : Int) : Int := max 1 elapsed

/-- The `max_sleep_after_hours.saturating_mul(60 * 60)` of
src/config.rs line 122 (u64 saturating multiplication). -/
def Config.maxSleepAfterSecs (c : Config) : Nat :=
  min (c.max_sleep_after_hours * (60 * 60)) (2 ^ 64 - 1)

/-- The `duration_ratio` of src/config.rs lines 121-123, with f32
arithmetic modelled over ℚ. When the divisor is zero the f32 division
yields positive infinity (the numerator is at least 1), which clamps
to 1; that case is written out since ℚ has no infinities. -/
def Config.duration_ratio (c : Config) (elapsed : Int) : ℚ :=
  if c.maxSleepAfterSecs = 0 then 1
  else clampQ ((since_last_update elapsed : ℚ) / (c.maxSleepAfterSecs : ℚ)) 0 1

/-- The unclamped average of src/config.rs lines 126-127:
`min_sleep_secs + ratio * max_sleep_secs.saturating_sub(min_sleep_secs)`
(Nat subtraction is saturating, like `saturating_sub`). -/
def Config.base_duration_secs (c : Config) (elapsed : Int) : ℚ :=
  (c.min_sleep_secs : ℚ)
    + c.duration_ratio elapsed * ((c.max_sleep_secs - c.min_sleep_secs : Nat) : ℚ)

/-- The `avg_duration_secs` of src/config.rs lines 126-128: the unclamped
average clamped to `[0.01, 3600]`. -/
def Config.avg_duration_secs (c : Config) (elapsed : Int) : ℚ :=
  clampQ (c.base_duration_secs elapsed) (1 / 100) 3600

/-- The `rnd_time` of src/config.rs lines 129-130: a uniform draw from
`[avg * 0.5, avg * 1.5]`, represented as `avg * j` with the jitter factor
`j` ranging over `[1/2, 3/2]` (the average is always positive, so this
covers exactly the same interval). -/
def Config.rnd_time (c : Config) (elapsed : Int) (j : ℚ) : ℚ :=
  c.avg_duration_secs elapsed * j

/-- Embeds `Config::cur_rng_sleep_time` (src/config.rs lines 113-134):
the returned duration in whole seconds,
`cmp::max(min_sleep_secs as i64, rnd_time as i64)`. -/
def Config.cur_rng_sleep_time (c : Config) (elapsed : Int) (j : ℚ) : Int :=
  max (u64_as_i64 c.min_sleep_secs) (ratTruncToInt (c.rnd_time elapsed j))

/-! Concrete values used to instantiate theorems. -/

/-- An s3 remote, as in the spec's worked example. -/
def exampleRemote : Url := ⟨"s3"⟩

/-- The spec's worked example record (section 8). -/
def exampleConfig : Config where
  remote := some exampleRemote
  configuration := some "nodeA"
  last_reconfiguration := 0
  last_etag := "v1"
  min_sleep_secs := 15
  max_sleep_secs := 120
  max_sleep_after_hours := 24

/-- A cycle oracle where every external call succeeds and the remote's
tag is `tag`. -/
def okWorld (tag : String) : CycleWorld where
  etagResult := .ok tag
  tmpDirResult := .ok ()
  spawnPullResult := .ok ()
  unpackResult := .ok ()
  pullWaitResult := .ok ()
  flakePresent := true
  activStatusResult := .ok 0
  storeResult := .ok ()

/-- A cycle oracle where the etag fetch fails with a transport error. -/
def transportFailWorld : CycleWorld :=
  { okWorld "v2" with etagResult := .error "transport error" }

/-- A cycle oracle where the pull subprocess fails to spawn. -/
def pullFailWorld : CycleWorld :=
  { okWorld "v2" with spawnPullResult := .error "pull failed" }

/-- A record with valid tuning (min ≤ max, both non-negative) whose
`min_sleep_secs` does not survive the `u64 as i64` cast. -/
def extremeConfig : Config where
  remote := none
  configuration := none
  last_reconfiguration := 0
  last_etag := ""
  min_sleep_secs := 2 ^ 63
  max_sleep_secs := 2 ^ 63
  max_sleep_after_hours := 24

/-- Unless the cycle reaches the full success path with persistence on
(pull spawned, unpacked, waited, flake verified, activation command ran,
record stored), the stored record at the end of the cycle is the one it
started with. -/
theorem daemonCycle_fst_of_not_success (persist : Bool) (stored : Config) (now : Int)
    (w : CycleWorld)
    (h : persist = false ∨ isErr w.spawnPullResult = true ∨ isErr w.unpackResult = true
      ∨ isErr w.pullWaitResult = true ∨ w.flakePresent = false
      ∨ isErr w.activStatusResult = true ∨ isErr w.storeResult = true) :
    (daemonCycle persist stored now w).1 = stored := by
  obtain ⟨rem, conf, lastRec, lastEtag, mn, mx, mh⟩ := stored
  obtain ⟨etagR, tmpR, spawnR, unpackR, waitR, flake, activR, storeR⟩ := w
  simp only [isErr] at h
  unfold daemonCycle get_etag pullOp verify_flake_src
  rcases rem with _ | r
  · rfl
  · by_cases hs : r.scheme = "s3" <;> simp only [hs, if_true, if_false]
    · rcases etagR with e | etag
      · rfl
      · simp only
        by_cases htag : lastEtag = etag
        · rw [if_pos htag]
        · rw [if_neg htag]
          rcases tmpR with e | _
          · rfl
          · rcases spawnR with e | _
            · rfl
            · rcases unpackR with e | _
              · rfl
              · rcases waitR with e | _
                · rfl
                · rcases conf with _ | c
                  · rfl
                  · rcases flake with _ | _
                    · rfl
                    · rcases activR with e | code
                      · rfl
                      · rcases persist with _ | _
                        · rfl
                        · rcases storeR with e | _
                          · rfl
                          · exfalso
                            simp at h

/-- The binary's daemon cycle never emits a store effect. -/
theorem daemonCycleBin_no_store (stored : Config) (now : Int) (w : CycleWorld) :
    Effect.store ∉ (daemonCycleBin stored now w).2.1 := by
  obtain ⟨rem, conf, lastRec, lastEtag, mn, mx, mh⟩ := stored
  obtain ⟨etagR, tmpR, spawnR, unpackR, waitR, flake, activR, storeR⟩ := w
  unfold daemonCycleBin daemonCycle get_etag pullOp verify_flake_src
  rcases rem with _ | r
  · simp
  · by_cases hs : r.scheme = "s3" <;> simp only [hs, if_true, if_false]
    · rcases etagR with e | etag
      · simp
      · simp only
        by_cases htag : lastEtag = etag
        · rw [if_pos htag]
          simp
        · rw [if_neg htag]
          rcases tmpR with e | _
          · simp
          · rcases spawnR with e | _
            · simp
            · rcases unpackR with e | _
              · simp
              · rcases waitR with e | _
                · simp
                · rcases conf with _ | c
                  · simp
                  · rcases flake with _ | _
                    · simp
                    · rcases activR with e | code <;> simp
    · simp

/-- The binary's daemon run never changes the stored record, however many
cycles it executes. -/
theorem daemonRunBin_fst (stored : Config) (now : Int) (ws : List CycleWorld) :
    (daemonRun false stored now ws).1 = stored := by
  induction ws with
  | nil => rfl
  | cons w ws ih =>
    have hfst := daemonCycle_fst_of_not_success false stored now w (Or.inl rfl)
    unfold daemonRun
    rcases hres : daemonCycle false stored now w with ⟨st, tr, res⟩
    rw [hres] at hfst
    rcases res with e | u
    · simpa using hfst
    · simp only at hfst
      simpa [hfst] using ih

/-- An error in a daemon cycle reduces it to the unchanged record and that
error, when the remote is a configured s3 URL and the etag fetch fails. -/
theorem daemonCycle_fetch_error (persist : Bool) (stored : Config) (now : Int)
    (w : CycleWorld) (r : Url) (e : String)
    (hr : stored.remote = some r) (hs : r.scheme = "s3") (he : w.etagResult = .error e) :
    daemonCycle persist stored now w = (stored, [Effect.sleep, Effect.fetchTag], .error e) := by
  simp [daemonCycle, get_etag, hr, hs, he]

/-- C1: in a library daemon cycle, if pull (the transport spawn, the
unpack, or the final wait) or activation (the flake check or the
activation command's io) fails, the stored record's `last_etag` and
`last_reconfiguration` are unchanged at the end of the cycle, so the
persisted tag never advances past a version that was not activated. -/
theorem daemon_state_unchanged_on_sync_failure (stored : Config) (now : Int) (w : CycleWorld)
    (h : isErr w.spawnPullResult = true ∨ isErr w.unpackResult = true
      ∨ isErr w.pullWaitResult = true ∨ w.flakePresent = false
      ∨ isErr w.activStatusResult = true) :
    (daemonCycleLib stored now w).1.last_etag = stored.last_etag
    ∧ (daemonCycleLib stored now w).1.last_reconfiguration = stored.last_reconfiguration := by
  have hfst : (daemonCycleLib stored now w).1 = stored :=
    daemonCycle_fst_of_not_success true stored now w (by tauto)
  rw [hfst]
  exact ⟨rfl, rfl⟩

theorem daemon_state_unchanged_on_sync_failure_witness :
    (daemonCycleLib exampleConfig 0 pullFailWorld).1.last_etag = exampleConfig.last_etag
    ∧ (daemonCycleLib exampleConfig 0 pullFailWorld).1.last_reconfiguration
        = exampleConfig.last_reconfiguration :=
  daemon_state_unchanged_on_sync_failure exampleConfig 0 pullFailWorld (Or.inl (by decide))

/-- C2 counterexample: a transport failure of the etag fetch makes
`daemon` return the error — the daemon exits instead of continuing to the
next iteration (a further all-success cycle was available and was never
reached). -/
theorem daemon_exits_on_fetch_error_cex :
    daemonRun true exampleConfig 0 [transportFailWorld, okWorld "v2"]
      = (exampleConfig, some "transport error") := by
  decide

/-- C2 amended: an etag-fetch failure does not update the stored record,
but it is not caught either: both daemon loops propagate it via `?` and
terminate with that error. -/
theorem daemon_fetch_error_terminates (stored : Config) (now : Int) (w : CycleWorld)
    (ws : List CycleWorld) (r : Url) (e : String)
    (hr : stored.remote = some r) (hs : r.scheme = "s3") (he : w.etagResult = .error e) :
    daemonRun true stored now (w :: ws) = (stored, some e)
    ∧ daemonRun false stored now (w :: ws) = (stored, some e) := by
  constructor <;>
  · unfold daemonRun
    rw [daemonCycle_fetch_error _ stored now w r e hr hs he]

theorem daemon_fetch_error_terminates_witness :
    daemonRun true exampleConfig 0 [transportFailWorld] = (exampleConfig, some "transport error")
    ∧ daemonRun false exampleConfig 0 [transportFailWorld]
        = (exampleConfig, some "transport error") :=
  daemon_fetch_error_terminates exampleConfig 0 transportFailWorld [] exampleRemote
    "transport error" rfl rfl rfl

/-- C3, the code evaluated at the failing input: with flake.nix present
and the external activation command running and exiting with non-zero
status 1, `activate` returns success — the `ExitStatus` of `.status()?`
is dropped without being inspected. -/
theorem activate_ok_on_nonzero_exit :
    activate { flakePresent := true, statusResult := .ok 1 } = .ok () := rfl

/-- C4: a library daemon cycle in which the etag fetch returns a tag equal
to the stored `last_etag` performs exactly the sleep and the tag fetch —
no pull, no unpack, no activation, no store — and leaves the stored
record unchanged. -/
theorem daemon_cycle_same_tag_noop (stored : Config) (now : Int) (w : CycleWorld) (r : Url)
    (hr : stored.remote = some r) (hs : r.scheme = "s3")
    (he : w.etagResult = .ok stored.last_etag) :
    daemonCycleLib stored now w = (stored, [Effect.sleep, Effect.fetchTag], .ok ()) := by
  simp [daemonCycleLib, daemonCycle, get_etag, hr, hs, he]

theorem daemon_cycle_same_tag_noop_witness :
    daemonCycleLib exampleConfig 0 (okWorld "v1")
      = (exampleConfig, [Effect.sleep, Effect.fetchTag], .ok ()) :=
  daemon_cycle_same_tag_noop exampleConfig 0 (okWorld "v1") exampleRemote rfl rfl rfl

/-- C5: loading the persisted record from an absent file yields the fresh
default record, whose `last_etag` is the empty string, while a file that
is present but invalid is an error. -/
theorem load_config_absent_defaults (now : Int) :
    load_config .absent now = .ok (Config.default now)
    ∧ (Config.default now).last_etag = ""
    ∧ ∀ e, load_config (.invalid e) now = .error e :=
  ⟨rfl, rfl, fun _ => rfl⟩

/-- C8: `push` on a source directory without flake.nix fails with the
validation error and performs no effect at all — in particular no
transport subprocess is spawned. -/
theorem push_without_flake_no_network (remote : Url) (w : PushWorld) :
    push false remote w
      = ([], .error "Flake source directory does not contain flake.nix file") := rfl

/-- C9: the binary's daemon cycle returns the stored record unchanged and
never emits a store effect, a whole run leaves the record unchanged (so
every later cycle compares against the pre-sync tag), while the library's
daemon cycle does change the persisted `last_etag` on a successful sync. -/
theorem npcnix_daemon_never_persists (stored : Config) (now : Int) (w : CycleWorld)
    (ws : List CycleWorld) :
    (daemonCycleBin stored now w).1 = stored
    ∧ Effect.store ∉ (daemonCycleBin stored now w).2.1
    ∧ (daemonRun false stored now ws).1 = stored
    ∧ ∃ (s : Config) (wl : CycleWorld),
        (daemonCycleLib s now wl).1.last_etag ≠ s.last_etag := by
  refine ⟨daemonCycle_fst_of_not_success false stored now w (Or.inl rfl),
    daemonCycleBin_no_store stored now w, daemonRunBin_fst stored now ws, ?_⟩
  refine ⟨exampleConfig, okWorld "v2", ?_⟩
  show ("v2" : String) ≠ "v1"
  decide

/-! Order facts about the backoff scheduler. -/

theorem duration_ratio_nonneg (c : Config) (e : Int) : 0 ≤ c.duration_ratio e := by
  unfold Config.duration_ratio clampQ
  split_ifs
  · norm_num
  · exact le_max_left 0 _

theorem duration_ratio_le_one (c : Config) (e : Int) : c.duration_ratio e ≤ 1 := by
  unfold Config.duration_ratio clampQ
  split_ifs
  · exact le_rfl
  · exact max_le (by norm_num) (min_le_right _ _)

theorem one_hundredth_le_avg (c : Config) (e : Int) : 1 / 100 ≤ c.avg_duration_secs e := by
  unfold Config.avg_duration_secs clampQ
  exact le_max_left _ _

theorem avg_pos (c : Config) (e : Int) : 0 < c.avg_duration_secs e :=
  lt_of_lt_of_le (by norm_num) (one_hundredth_le_avg c e)

theorem min_le_base (c : Config) (e : Int) :
    (c.min_sleep_secs : ℚ) ≤ c.base_duration_secs e := by
  unfold Config.base_duration_secs
  have h : 0 ≤ c.duration_ratio e * ((c.max_sleep_secs - c.min_sleep_secs : Nat) : ℚ) :=
    mul_nonneg (duration_ratio_nonneg c e) (Nat.cast_nonneg _)
  linarith

theorem base_le_max (c : Config) (e : Int) (hmm : c.min_sleep_secs ≤ c.max_sleep_secs) :
    c.base_duration_secs e ≤ (c.max_sleep_secs : ℚ) := by
  unfold Config.base_duration_secs
  rw [Nat.cast_sub hmm]
  have h1 := duration_ratio_le_one c e
  have h0 := duration_ratio_nonneg c e
  have hd : (0 : ℚ) ≤ (c.max_sleep_secs : ℚ) - (c.min_sleep_secs : ℚ) := by
    have := (Nat.cast_le (α := ℚ)).mpr hmm
    linarith
  nlinarith [mul_nonneg (by linarith : (0:ℚ) ≤ 1 - c.duration_ratio e) hd]

theorem duration_ratio_mono (c : Config) {e1 e2 : Int} (h : e1 ≤ e2) :
    c.duration_ratio e1 ≤ c.duration_ratio e2 := by
  unfold Config.duration_ratio
  split_ifs with h0
  · exact le_rfl
  · have hden : (0 : ℚ) < (c.maxSleepAfterSecs : ℚ) := by
      exact_mod_cast Nat.pos_of_ne_zero h0
    unfold clampQ
    refine max_le_max le_rfl (min_le_min ?_ le_rfl)
    have hq : ((since_last_update e1 : Int) : ℚ) ≤ ((since_last_update e2 : Int) : ℚ) := by
      exact_mod_cast max_le_max (le_refl (1 : Int)) h
    exact (div_le_div_right hden).mpr hq

theorem base_mono (c : Config) {e1 e2 : Int} (h : e1 ≤ e2) :
    c.base_duration_secs e1 ≤ c.base_duration_secs e2 := by
  unfold Config.base_duration_secs
  exact add_le_add_left
    (mul_le_mul_of_nonneg_right (duration_ratio_mono c h) (Nat.cast_nonneg _)) _

theorem avg_mono (c : Config) {e1 e2 : Int} (h : e1 ≤ e2) :
    c.avg_duration_secs e1 ≤ c.avg_duration_secs e2 := by
  unfold Config.avg_duration_secs clampQ
  exact max_le_max le_rfl (min_le_min (base_mono c h) le_rfl)

theorem duration_ratio_eq_one (c : Config) (x : Int)
    (hx : (c.maxSleepAfterSecs : Int) ≤ x) : c.duration_ratio x = 1 := by
  unfold Config.duration_ratio
  split_ifs with h0
  · rfl
  · have hpos : 0 < c.maxSleepAfterSecs := Nat.pos_of_ne_zero h0
    have hx1 : (1 : Int) ≤ x := le_trans (by exact_mod_cast hpos) hx
    have hsince : since_last_update x = x := max_eq_right hx1
    unfold clampQ
    rw [hsince]
    have hdq : (0 : ℚ) < (c.maxSleepAfterSecs : ℚ) := by exact_mod_cast hpos
    have hge1 : (1 : ℚ) ≤ ((x : Int) : ℚ) / (c.maxSleepAfterSecs : ℚ) := by
      refine (one_le_div hdq).mpr ?_
      exact_mod_cast hx
    rw [min_eq_right hge1, max_eq_right (by norm_num : (0:ℚ) ≤ 1)]

/-- The sleep duration depends on the elapsed time only through the
ratio. -/
theorem cur_congr_ratio (c : Config) (e1 e2 : Int) (j : ℚ)
    (h : c.duration_ratio e1 = c.duration_ratio e2) :
    c.cur_rng_sleep_time e1 j = c.cur_rng_sleep_time e2 j := by
  unfold Config.cur_rng_sleep_time Config.rnd_time Config.avg_duration_secs
    Config.base_duration_secs
  rw [h]

/-- C10: for every record, every elapsed time, and every jitter factor in
the drawn range, the computed sleep duration is non-negative and at least
`max(min_sleep_secs as i64, 0)`, so `Duration::to_std` in `rng_sleep`
cannot see a negative duration, and the two internal assertions hold:
the ratio is non-negative and the drawn time is positive. -/
theorem cur_rng_sleep_time_nonneg (c : Config) (elapsed : Int) (j : ℚ)
    (hj1 : 1 / 2 ≤ j) (hj2 : j ≤ 3 / 2) :
    0 ≤ c.cur_rng_sleep_time elapsed j
    ∧ max (u64_as_i64 c.min_sleep_secs) 0 ≤ c.cur_rng_sleep_time elapsed j
    ∧ 0 ≤ c.duration_ratio elapsed
    ∧ 0 < c.rnd_time elapsed j := by
  have hrnd : 0 < c.rnd_time elapsed j := by
    unfold Config.rnd_time
    exact mul_pos (avg_pos c elapsed) (lt_of_lt_of_le (by norm_num) hj1)
  have htr : 0 ≤ ratTruncToInt (c.rnd_time elapsed j) := by
    unfold ratTruncToInt
    rw [if_pos hrnd.le]
    exact Int.floor_nonneg.mpr hrnd.le
  have h0 : 0 ≤ c.cur_rng_sleep_time elapsed j := le_trans htr (le_max_right _ _)
  exact ⟨h0, max_le (le_max_left _ _) h0, duration_ratio_nonneg c elapsed, hrnd⟩

theorem cur_rng_sleep_time_nonneg_witness :
    0 ≤ (Config.default 0).cur_rng_sleep_time 0 1
    ∧ max (u64_as_i64 (Config.default 0).min_sleep_secs) 0
        ≤ (Config.default 0).cur_rng_sleep_time 0 1
    ∧ 0 ≤ (Config.default 0).duration_ratio 0
    ∧ 0 < (Config.default 0).rnd_time 0 1 :=
  cur_rng_sleep_time_nonneg (Config.default 0) 0 1 (by norm_num) (by norm_num)

/-- C6 counterexample: with the valid tuning min = max = 2^63 (min ≤ max),
elapsed 1 ≥ 0 and the jitter factor at its center 1, the computed sleep
is 3600 seconds, far below `min_sleep_secs`: the final
`cmp::max(min_sleep_secs as i64, ..)` compares against the wrapped
negative value -2^63, so the floor does not hold. -/
theorem sleep_below_min_cex :
    extremeConfig.min_sleep_secs ≤ extremeConfig.max_sleep_secs
    ∧ (1 / 2 : ℚ) ≤ 1 ∧ (1 : ℚ) ≤ 3 / 2 ∧ (0 : Int) ≤ 1
    ∧ extremeConfig.cur_rng_sleep_time 1 1 = 3600
    ∧ ¬ ((extremeConfig.min_sleep_secs : Int) ≤ extremeConfig.cur_rng_sleep_time 1 1) := by
  have h : extremeConfig.cur_rng_sleep_time 1 1 = 3600 := by
    norm_num [Config.cur_rng_sleep_time, Config.rnd_time, Config.avg_duration_secs,
      Config.base_duration_secs, Config.duration_ratio, Config.maxSleepAfterSecs,
      since_last_update, clampQ, ratTruncToInt, u64_as_i64, extremeConfig]
  refine ⟨le_refl _, by norm_num, by norm_num, by norm_num, h, ?_⟩
  rw [h]
  decide

/-- C6 amended: for all valid tuning parameters (min ≤ max) whose
`min_sleep_secs` is below 2^63 (so the `u64 as i64` cast preserves it),
every elapsed ≥ 0, and every jitter factor in the drawn range, the sleep
duration lies within `[min_sleep_secs, max_sleep_secs * 1.5]` seconds;
in particular it is never below `min_sleep_secs`. -/
theorem cur_rng_sleep_time_bounds (c : Config) (elapsed : Int) (j : ℚ)
    (hmm : c.min_sleep_secs ≤ c.max_sleep_secs) (hsmall : c.min_sleep_secs < 2 ^ 63)
    (he : 0 ≤ elapsed) (hj1 : 1 / 2 ≤ j) (hj2 : j ≤ 3 / 2) :
    (c.min_sleep_secs : Int) ≤ c.cur_rng_sleep_time elapsed j
    ∧ (c.cur_rng_sleep_time elapsed j : ℚ) ≤ 3 / 2 * (c.max_sleep_secs : ℚ) := by
  have hu : u64_as_i64 c.min_sleep_secs = (c.min_sleep_secs : Int) := by
    unfold u64_as_i64
    have h1 : c.min_sleep_secs % 2 ^ 64 = c.min_sleep_secs :=
      Nat.mod_eq_of_lt (lt_trans hsmall (by norm_num))
    rw [h1, if_pos hsmall]
  have hrnd : 0 < c.rnd_time elapsed j :=
    mul_pos (avg_pos c elapsed) (lt_of_lt_of_le (by norm_num) hj1)
  have htr : ratTruncToInt (c.rnd_time elapsed j) = ⌊c.rnd_time elapsed j⌋ := by
    unfold ratTruncToInt
    rw [if_pos hrnd.le]
  have hcur : c.cur_rng_sleep_time elapsed j
      = max ((c.min_sleep_secs : Nat) : Int) ⌊c.rnd_time elapsed j⌋ := by
    unfold Config.cur_rng_sleep_time
    rw [hu, htr]
  constructor
  · rw [hcur]
    exact le_max_left _ _
  · have hmaxq : (0 : ℚ) ≤ (c.max_sleep_secs : ℚ) := Nat.cast_nonneg _
    have hminmax : (c.min_sleep_secs : ℚ) ≤ (c.max_sleep_secs : ℚ) :=
      (Nat.cast_le (α := ℚ)).mpr hmm
    have hrnd_bound : (⌊c.rnd_time elapsed j⌋ : ℚ) ≤ 3 / 2 * (c.max_sleep_secs : ℚ) := by
      rcases le_or_lt (1 / 100 : ℚ) (c.base_duration_secs elapsed) with hb | hb
      · have havg_le : c.avg_duration_secs elapsed ≤ (c.max_sleep_secs : ℚ) := by
          unfold Config.avg_duration_secs clampQ
          exact max_le (le_trans hb (base_le_max c elapsed hmm))
            (le_trans (min_le_left _ _) (base_le_max c elapsed hmm))
        have havg0 : 0 ≤ c.avg_duration_secs elapsed := (avg_pos c elapsed).le
        have h1 : c.rnd_time elapsed j ≤ 3 / 2 * (c.max_sleep_secs : ℚ) := by
          unfold Config.rnd_time
          nlinarith
        exact le_trans (Int.floor_le _) h1
      · have hmin0 : c.min_sleep_secs = 0 := by
          have : (c.min_sleep_secs : ℚ) < 1 :=
            lt_trans (lt_of_le_of_lt (min_le_base c elapsed) hb) (by norm_num)
          exact_mod_cast Nat.lt_one_iff.mp (by exact_mod_cast this)
        have havg : c.avg_duration_secs elapsed = 1 / 100 := by
          unfold Config.avg_duration_secs clampQ
          rw [min_eq_left (le_of_lt (lt_trans hb (by norm_num)))]
          exact max_eq_left hb.le
        have hfl : ⌊c.rnd_time elapsed j⌋ = 0 := by
          refine Int.floor_eq_zero_iff.mpr ⟨hrnd.le, ?_⟩
          unfold Config.rnd_time
          rw [havg]
          nlinarith
        rw [hfl]
        push_cast
        nlinarith
    rw [hcur]
    push_cast [Int.cast_max]
    exact max_le (by linarith) hrnd_bound

theorem cur_rng_sleep_time_bounds_witness :
    ((Config.default 0).min_sleep_secs : Int) ≤ (Config.default 0).cur_rng_sleep_time 0 1
    ∧ ((Config.default 0).cur_rng_sleep_time 0 1 : ℚ)
        ≤ 3 / 2 * ((Config.default 0).max_sleep_secs : ℚ) :=
  cur_rng_sleep_time_bounds (Config.default 0) 0 1 (by decide) (by decide) le_rfl
    (by norm_num) (by norm_num)

/-- C7: with the jitter draw held at its expectation (factor 1, the
center of `[avg * 0.5, avg * 1.5]`), the computed sleep duration is
non-decreasing in the elapsed time, and from
`max_sleep_after_hours * 3600` seconds on it equals its value at that
point — it plateaus. -/
theorem cur_rng_sleep_time_monotone_plateau (c : Config) (e1 e2 e : Int)
    (h12 : e1 ≤ e2) (hT : ((c.max_sleep_after_hours * 3600 : Nat) : Int) ≤ e) :
    c.cur_rng_sleep_time e1 1 ≤ c.cur_rng_sleep_time e2 1
    ∧ c.cur_rng_sleep_time e 1
        = c.cur_rng_sleep_time ((c.max_sleep_after_hours * 3600 : Nat) : Int) 1 := by
  have hHsT : (c.maxSleepAfterSecs : Int) ≤ ((c.max_sleep_after_hours * 3600 : Nat) : Int) := by
    have h : c.maxSleepAfterSecs ≤ c.max_sleep_after_hours * 3600 := by
      unfold Config.maxSleepAfterSecs
      have h6060 : c.max_sleep_after_hours * (60 * 60) = c.max_sleep_after_hours * 3600 := by
        norm_num
      rw [← h6060]
      exact min_le_left _ _
    exact_mod_cast h
  constructor
  · have hmono := avg_mono c h12
    have h1 := avg_pos c e1
    have h2 := avg_pos c e2
    unfold Config.cur_rng_sleep_time Config.rnd_time ratTruncToInt
    simp only [mul_one]
    rw [if_pos h1.le, if_pos h2.le]
    exact max_le_max le_rfl (Int.floor_le_floor hmono)
  · exact cur_congr_ratio c _ _ 1
      (by rw [duration_ratio_eq_one c e (le_trans hHsT hT), duration_ratio_eq_one c _ hHsT])

theorem cur_rng_sleep_time_monotone_plateau_witness :
    (Config.default 0).cur_rng_sleep_time 0 1 ≤ (Config.default 0).cur_rng_sleep_time 5 1
    ∧ (Config.default 0).cur_rng_sleep_time 100000 1
        = (Config.default 0).cur_rng_sleep_time
            (((Config.default 0).max_sleep_after_hours * 3600 : Nat) : Int) 1 :=
  cur_rng_sleep_time_monotone_plateau (Config.default 0) 0 5 100000 (by norm_num) (by decide)

end Npcnix
